import Mathlib

/-!
Verification of the `ReusableForm` dynamic-form renderer.

The source is a single React component (`src/unnamed/part_000`): a visibility
predicate `shouldRender`, a field-type dispatch that renders one control per
field descriptor plus a label and an inline error message, and a submit
handler `enhancedSubmit` that forwards the validated value-set to the
caller-supplied `onSubmit` callback.  The external form-state and validation
collaborators (react-hook-form's `handleSubmit` / `watch` and the yup
resolver) are not part of this repository; where a property depends on their
contract, the definition is modelled from the specification and marked as
such in its doc comment.

JavaScript values are embedded as the inductive `JSValue` (undefined, null,
booleans, integer numbers, strings); JS strict equality `===` coincides with
structural (decidable) equality on this fragment, since distinct constructors
never compare equal and no coercion happens.
-/

namespace ReusableFormSpec

/-- JS values as far as the component manipulates them: `undefined`, `null`,
booleans, (integer) numbers and strings.  Strict equality `===` on this
fragment is structural equality: values of different runtime type are never
equal, so no coercion can occur. -/
inductive JSValue where
  | undef : JSValue
  | null : JSValue
  | bool : Bool → JSValue
  | num : Int → JSValue
  | str : String → JSValue
deriving DecidableEq

/-- The live value-set returned by `watch()`: field name to current value.
A name with no entry reads as `undefined`, exactly like JS property access. -/
abbrev ValueSet := List (String × JSValue)

/-- The error-set `formState.errors`: field name to the validation message of
the error object stored under that name. -/
abbrev ErrorSet := List (String × String)

/-- JS property read `valueSet[name]`: the stored value, or `undefined` when
the key is absent. -/
def lookupVS (vs : ValueSet) (k : String) : JSValue :=
  match vs.find? (fun p => p.1 == k) with
  | some p => p.2
  | none => JSValue.undef

/-- JS property read `errors[name]`: `some message` when an error object is
stored under the name (the object is truthy), `none` otherwise. -/
def lookupErr (es : ErrorSet) (k : String) : Option String :=
  match es.find? (fun p => p.1 == k) with
  | some p => some p.2
  | none => none

/-- JS truthiness: `undefined`, `null`, `false`, `0` and `""` are falsy. -/
def truthy : JSValue → Bool
  | JSValue.undef => false
  | JSValue.null => false
  | JSValue.bool b => b
  | JSValue.num n => decide (n ≠ 0)
  | JSValue.str s => decide (s ≠ "")

/-- JS `a || b`: the left operand when truthy, else the right operand. -/
def jsOr (a b : JSValue) : JSValue :=
  if truthy a then a else b

/-- The integer fragment of JS ToNumber, as used by the relational operator
`<=` in the rating branch: `none` stands for NaN. -/
def toNumber : JSValue → Option Int
  | JSValue.undef => none
  | JSValue.null => some 0
  | JSValue.bool b => some (if b then 1 else 0)
  | JSValue.num n => some n
  | JSValue.str s => if s.trim = "" then some 0 else s.trim.toInt?

/-- JS `a <= b` with a numeric left operand: coerces the right operand with
ToNumber; any comparison against NaN is false. -/
def jsLe (a : Int) (b : JSValue) : Bool :=
  match toNumber b with
  | some n => decide (a ≤ n)
  | none => false

/-- One `{value, label}` entry of a field descriptor's `options` array. -/
structure Opt where
  value : String
  label : String
deriving DecidableEq

/-- The `conditional` rule of a field descriptor.  The source destructures it
as `const { field: depField, value } = field.conditional`, so its keys are
`field` (the dependency field name) and `value` (the trigger value, which is
`undefined` when the key is absent). -/
structure Conditional where
  field : String
  value : JSValue
deriving DecidableEq

/-- A field descriptor, as consumed by the component: `name`, `label`,
`type`, optional `placeholder`, `options` (used by select/radio), optional
`conditional` rule and optional `max` (used by rating). -/
structure Field where
  name : String
  label : String
  type : String
  placeholder : Option String
  options : List Opt
  conditional : Option Conditional
  max : Option Nat
deriving DecidableEq

/-- The visibility predicate (source lines 36-40):
`if (!field.conditional) return true;` then
`return watchedValues[depField] === value;`.  Strict equality is structural
equality on `JSValue`. -/
def shouldRender (f : Field) (watchedValues : ValueSet) : Bool :=
  match f.conditional with
  | none => true
  | some c => decide (lookupVS watchedValues c.field = c.value)

/-- Claim C1: for a field with a conditional rule, `shouldRender` is true iff
the value-set entry for the dependency field is strictly equal to the trigger
value; in particular the number 1 never matches the string "1" (no type
coercion). -/
theorem shouldRender_conditional_iff (f : Field) (c : Conditional)
    (vs : ValueSet) (h : f.conditional = some c) :
    (shouldRender f vs = true ↔ lookupVS vs c.field = c.value) ∧
    (lookupVS vs c.field = JSValue.num 1 → c.value = JSValue.str "1" →
      shouldRender f vs = false) := by
  constructor
  · simp [shouldRender, h]
  · intro h1 h2
    simp [shouldRender, h, h1, h2]

/-- Example field for claim C1: a text field shown only when the field
`country` has the string value `other`. -/
def fC1 : Field :=
  ⟨"customCountry", "Custom country", "text", none, [],
   some ⟨"country", JSValue.str "other"⟩, none⟩

theorem shouldRender_conditional_iff_witness :
    (shouldRender fC1 [("country", JSValue.num 1)] = true ↔
      lookupVS [("country", JSValue.num 1)] "country" = JSValue.str "other") ∧
    (lookupVS [("country", JSValue.num 1)] "country" = JSValue.num 1 →
      JSValue.str "other" = JSValue.str "1" →
      shouldRender fC1 [("country", JSValue.num 1)] = false) :=
  shouldRender_conditional_iff fC1 ⟨"country", JSValue.str "other"⟩
    [("country", JSValue.num 1)] rfl

/-- Claim C4: a field with no conditional rule always renders, whatever the
value-set holds. -/
theorem shouldRender_no_conditional (f : Field) (vs : ValueSet)
    (h : f.conditional = none) : shouldRender f vs = true := by
  simp [shouldRender, h]

/-- Example field for claim C4: a plain email field with no conditional. -/
def fC4 : Field := ⟨"email", "Email", "email", none, [], none, none⟩

theorem shouldRender_no_conditional_witness :
    shouldRender fC4 [("email", JSValue.str "x"), ("age", JSValue.num 7)] = true :=
  shouldRender_no_conditional fC4
    [("email", JSValue.str "x"), ("age", JSValue.num 7)] rfl

/-- Claim C5: when the dependency field is unset (its value-set entry reads
`undefined`) and the conditional declares an actual trigger value (one that is
not `undefined`), `shouldRender` is false, so the dependent field stays hidden
by default. -/
theorem shouldRender_unset_dep (f : Field) (c : Conditional) (vs : ValueSet)
    (h : f.conditional = some c) (hv : c.value ≠ JSValue.undef)
    (hu : lookupVS vs c.field = JSValue.undef) :
    shouldRender f vs = false := by
  simp only [shouldRender, h, hu, decide_eq_false_iff_not]
  exact fun hh => hv hh.symm

/-- Example field for claim C5: depends on `country` equalling `other`. -/
def fC5 : Field :=
  ⟨"customCountry", "Custom country", "text", none, [],
   some ⟨"country", JSValue.str "other"⟩, none⟩

theorem shouldRender_unset_dep_witness :
    shouldRender fC5 [] = false :=
  shouldRender_unset_dep fC5 ⟨"country", JSValue.str "other"⟩ [] rfl
    (by decide) rfl

/-- Claim C10: when the conditional's trigger value is `undefined` (for
instance the `value` key is absent from the conditional object) and the
dependency field is unset, `shouldRender` is true, because
`undefined === undefined` holds. -/
theorem shouldRender_undef_trigger (f : Field) (c : Conditional)
    (vs : ValueSet) (h : f.conditional = some c)
    (hv : c.value = JSValue.undef)
    (hu : lookupVS vs c.field = JSValue.undef) :
    shouldRender f vs = true := by
  simp [shouldRender, h, hu, hv]

/-- Example field for claim C10: conditional present but with an `undefined`
trigger value. -/
def fC10 : Field :=
  ⟨"extra", "Extra", "text", none, [], some ⟨"country", JSValue.undef⟩, none⟩

theorem shouldRender_undef_trigger_witness :
    shouldRender fC10 [] = true :=
  shouldRender_undef_trigger fC10 ⟨"country", JSValue.undef⟩ [] rfl rfl rfl

/-- Abstract rendered output.  Each constructor stands for one block of the
JSX the component emits: the top label, one interactive control per
recognised `type`, and the inline error text. -/
inductive Node where
  | label : String → String → Node
  | input : String → String → Option String → Node
  | textarea : String → Option String → Node
  | select : String → List (String × String) → Node
  | radioGroup : String → List (String × String) → Node
  | checkbox : String → String → Node
  | fileInput : String → Node
  | rating : String → List (Nat × Bool) → Node
  | errorText : String → Node
deriving DecidableEq

/-- The `options.map` of the select and radio branches (source lines 85-89
and 95-108): one entry per option, in order, carrying its value and label. -/
def optionEntries (opts : List Opt) : List (String × String) :=
  opts.map (fun o => (o.value, o.label))

/-- The star count `field.max || 5` of the rating branch (source line 139):
`max` unset (or 0, which is falsy) yields 5. -/
def ratingMax (f : Field) : Nat :=
  match f.max with
  | some m => if m = 0 then 5 else m
  | none => 5

/-- The stars of the rating branch (source lines 139-154): for each index
`i` below the star count, a star with 1-indexed value `i + 1`, filled iff
`value <= (watch(field.name) || 0)`. -/
def ratingStars (f : Field) (values : ValueSet) : List (Nat × Bool) :=
  (List.range (ratingMax f)).map (fun i =>
    (i + 1, jsLe (Int.ofNat (i + 1)) (jsOr (lookupVS values f.name) (JSValue.num 0))))

/-- The inline error block (source lines 159-163): when `errors[field.name]`
is present (a truthy error object), a text node with its message; otherwise
nothing. -/
def errorBlock (es : ErrorSet) (name : String) : List Node :=
  match lookupErr es name with
  | some m => [Node.errorText m]
  | none => []

/-- The ten field types the dispatch recognises. -/
def knownKinds : List String :=
  ["text", "email", "password", "date", "textarea", "select", "radio",
   "checkbox", "file", "rating"]

/-- The body rendered for one visible field (source lines 50-164): the top
label (except for checkbox and rating), then each type-guarded control block
in source order, then the inline error block. -/
def renderField (f : Field) (values : ValueSet) (es : ErrorSet) : List Node :=
  (if f.type ≠ "checkbox" ∧ f.type ≠ "rating"
    then [Node.label f.name f.label] else []) ++
  (if f.type ∈ ["text", "email", "password", "date"]
    then [Node.input f.name f.type f.placeholder] else []) ++
  (if f.type = "textarea" then [Node.textarea f.name f.placeholder] else []) ++
  (if f.type = "select"
    then [Node.select f.name (optionEntries f.options)] else []) ++
  (if f.type = "radio"
    then [Node.radioGroup f.name (optionEntries f.options)] else []) ++
  (if f.type = "checkbox" then [Node.checkbox f.name f.label] else []) ++
  (if f.type = "file" then [Node.fileInput f.name] else []) ++
  (if f.type = "rating"
    then [Node.rating f.label (ratingStars f values)] else []) ++
  errorBlock es f.name

/-- The full render pass (source lines 46-166): each field in caller order,
rendered iff `shouldRender` holds, hidden fields contributing nothing
(`return null`). -/
def renderForm (fields : List Field) (values : ValueSet) (es : ErrorSet) :
    List (List Node) :=
  fields.map (fun f => if shouldRender f values then renderField f values es else [])

/-- The submit handler `enhancedSubmit` (source lines 32-34), as the trace of
`onSubmit` invocations it performs on the validated data: exactly one call,
with the data passed through unchanged. -/
def enhancedSubmit (data : ValueSet) : List ValueSet := [data]

/-- Outcome of one submit attempt: the arguments of each `onSubmit`
invocation, in order, and the resulting error-set. -/
structure SubmitOutcome where
  onSubmitCalls : List ValueSet
  errors : ErrorSet
deriving DecidableEq

/-- Modelled from the spec: the external validation/submit pipeline
(react-hook-form's `handleSubmit` with the yup resolver), which is not part
of this repository.  Per the spec's Form Orchestrator contract, a submit runs
the validation schema against the complete current value-set; if it reports
no error the handler (`enhancedSubmit`) runs once on the full value-set,
otherwise the handler is not run and the error-set is updated with the
reported per-field errors. -/
def submitForm (validate : ValueSet → ErrorSet) (values : ValueSet) :
    SubmitOutcome :=
  if validate values = [] then ⟨enhancedSubmit values, []⟩
  else ⟨[], validate values⟩

/-- An error entry for a field makes the error text appear in that field's
rendered body, for any field type. -/
theorem errorText_mem_renderField (f : Field) (vs : ValueSet) (es : ErrorSet)
    (m : String) (hm : lookupErr es f.name = some m) :
    Node.errorText m ∈ renderField f vs es := by
  have hend : Node.errorText m ∈ errorBlock es f.name := by
    simp [errorBlock, hm]
  simp only [renderField, List.mem_append]
  tauto

/-- Claim C2: when the complete current value-set passes the validation
schema, submit invokes `onSubmit` exactly once, with the full value-set —
every field name, including any field currently hidden by its conditional
rule, reads the same value from the passed argument as from the current
value-set. -/
theorem submit_valid_calls (validate : ValueSet → ErrorSet) (values : ValueSet)
    (h : validate values = []) :
    (submitForm validate values).onSubmitCalls = [values] ∧
    (submitForm validate values).onSubmitCalls.length = 1 ∧
    (∀ d ∈ (submitForm validate values).onSubmitCalls, ∀ name : String,
      lookupVS d name = lookupVS values name) ∧
    (∀ f : Field, shouldRender f values = false →
      ∀ d ∈ (submitForm validate values).onSubmitCalls,
        lookupVS d f.name = lookupVS values f.name) := by
  simp [submitForm, h, enhancedSubmit]

/-- A validator that accepts every value-set. -/
def validateOk : ValueSet → ErrorSet := fun _ => []

/-- Example value-set for claim C2. -/
def vsC2 : ValueSet :=
  [("email", JSValue.str "user@site.test"), ("customCountry", JSValue.str "x")]

theorem submit_valid_calls_witness :
    (submitForm validateOk vsC2).onSubmitCalls = [vsC2] ∧
    (submitForm validateOk vsC2).onSubmitCalls.length = 1 ∧
    (∀ d ∈ (submitForm validateOk vsC2).onSubmitCalls, ∀ name : String,
      lookupVS d name = lookupVS vsC2 name) ∧
    (∀ f : Field, shouldRender f vsC2 = false →
      ∀ d ∈ (submitForm validateOk vsC2).onSubmitCalls,
        lookupVS d f.name = lookupVS vsC2 f.name) :=
  submit_valid_calls validateOk vsC2 rfl

/-- Claim C3: when the value-set fails the validation schema, `onSubmit` is
never invoked, the error-set is exactly the per-field errors the schema
reports (each with a non-empty message when the validator produces non-empty
messages), and each recorded entry makes the error text appear in the
rendered body of the field bearing that name on the next render. -/
theorem submit_invalid_no_calls (validate : ValueSet → ErrorSet)
    (values : ValueSet) (h : validate values ≠ [])
    (hwf : ∀ p ∈ validate values, p.2 ≠ "") :
    (submitForm validate values).onSubmitCalls = [] ∧
    (submitForm validate values).errors = validate values ∧
    (∀ p ∈ (submitForm validate values).errors, p.2 ≠ "") ∧
    (∀ (f : Field) (vs : ValueSet) (m : String),
      lookupErr (submitForm validate values).errors f.name = some m →
      Node.errorText m ∈ renderField f vs (submitForm validate values).errors) := by
  have hs : submitForm validate values = ⟨[], validate values⟩ := by
    simp [submitForm, h]
  refine ⟨by simp [hs], by simp [hs], ?_, ?_⟩
  · simpa [hs] using hwf
  · intro f vs m hm
    exact errorText_mem_renderField f vs _ m hm

/-- A validator that always reports an invalid email, mirroring the spec's
end-to-end scenario. -/
def validateBad : ValueSet → ErrorSet :=
  fun _ => [("email", "email must be a valid email")]

/-- Example value-set for claim C3. -/
def vsC3 : ValueSet := [("email", JSValue.str "not-an-email")]

theorem submit_invalid_no_calls_witness :
    (submitForm validateBad vsC3).onSubmitCalls = [] ∧
    (submitForm validateBad vsC3).errors = validateBad vsC3 ∧
    (∀ p ∈ (submitForm validateBad vsC3).errors, p.2 ≠ "") ∧
    (∀ (f : Field) (vs : ValueSet) (m : String),
      lookupErr (submitForm validateBad vsC3).errors f.name = some m →
      Node.errorText m ∈ renderField f vs (submitForm validateBad vsC3).errors) :=
  submit_invalid_no_calls validateBad vsC3 (by decide) (by decide)

/-- Claim C6: a rating field with `max = M` (`M` positive), or `max` unset
and `M = 5`, renders exactly `M` stars; the 1-indexed star `i + 1` is filled
iff the field's current numeric value is at least `i + 1`. -/
theorem rating_stars_spec (f : Field) (values : ValueSet) (M : Nat) (v : Int)
    (hM : (f.max = some M ∧ 0 < M) ∨ (f.max = none ∧ M = 5))
    (hv : lookupVS values f.name = JSValue.num v) :
    (ratingStars f values).length = M ∧
    (∀ i : Nat, i < M →
      (ratingStars f values)[i]? = some (i + 1, decide ((i : Int) + 1 ≤ v))) := by
  have hmax : ratingMax f = M := by
    rcases hM with ⟨h1, h2⟩ | ⟨h1, h2⟩
    · have hM0 : ¬ M = 0 := by omega
      simp [ratingMax, h1, hM0]
    · simp [ratingMax, h1, h2]
  have hstar : ∀ i : Nat,
      jsLe ((i : Int) + 1) (jsOr (JSValue.num v) (JSValue.num 0)) =
        decide ((i : Int) + 1 ≤ v) := by
    intro i
    by_cases h0 : v = 0
    · simp [jsOr, truthy, h0, jsLe, toNumber]
    · simp [jsOr, truthy, h0, jsLe, toNumber]
  constructor
  · simp [ratingStars, hmax]
  · intro i hi
    simp [ratingStars, hmax, hv, List.getElem?_map, List.getElem?_range, hi,
      hstar i]

/-- Example rating field for claim C6: `max = 3`, current value 2, so stars
render as filled, filled, empty. -/
def fC6 : Field := ⟨"stars", "Rate us", "rating", none, [], none, some 3⟩

/-- Example value-set for claim C6. -/
def vsC6 : ValueSet := [("stars", JSValue.num 2)]

theorem rating_stars_spec_witness :
    (ratingStars fC6 vsC6).length = 3 ∧
    (∀ i : Nat, i < 3 →
      (ratingStars fC6 vsC6)[i]? = some (i + 1, decide ((i : Int) + 1 ≤ 2))) :=
  rating_stars_spec fC6 vsC6 3 2 (Or.inl ⟨rfl, by decide⟩) rfl

/-- Claim C7: a select or radio field with N options renders exactly N
selectable entries, in input order, each carrying the declared value and
label of its option. -/
theorem select_radio_entries (f : Field) (vs : ValueSet) (es : ErrorSet)
    (_hk : f.type = "select" ∨ f.type = "radio") :
    ((f.type = "select" →
        Node.select f.name (optionEntries f.options) ∈ renderField f vs es) ∧
     (f.type = "radio" →
        Node.radioGroup f.name (optionEntries f.options) ∈ renderField f vs es)) ∧
    (optionEntries f.options).length = f.options.length ∧
    (∀ i : Nat, (optionEntries f.options)[i]? =
      (f.options[i]?).map (fun o => (o.value, o.label))) := by
  refine ⟨⟨?_, ?_⟩, ?_, ?_⟩
  · intro ht
    simp [renderField, ht]
  · intro ht
    simp [renderField, ht]
  · simp [optionEntries]
  · intro i
    simp [optionEntries, List.getElem?_map]

/-- Example select field for claim C7, from the spec's end-to-end
scenario. -/
def fC7 : Field :=
  ⟨"country", "Country", "select", none, [⟨"us", "US"⟩, ⟨"other", "Other"⟩],
   none, none⟩

theorem select_radio_entries_witness :
    ((fC7.type = "select" →
        Node.select fC7.name (optionEntries fC7.options) ∈ renderField fC7 [] []) ∧
     (fC7.type = "radio" →
        Node.radioGroup fC7.name (optionEntries fC7.options) ∈ renderField fC7 [] [])) ∧
    (optionEntries fC7.options).length = fC7.options.length ∧
    (∀ i : Nat, (optionEntries fC7.options)[i]? =
      (fC7.options[i]?).map (fun o => (o.value, o.label))) :=
  select_radio_entries fC7 [] [] (Or.inl rfl)

/-- Claim C8: a visible field whose `type` is none of the ten recognised
kinds renders no interactive control, only the label block followed by the
error block; the error block shows the message exactly when the error-set
has an entry for the field. -/
theorem unknown_kind_no_control (f : Field) (vs : ValueSet) (es : ErrorSet)
    (h : f.type ∉ knownKinds) :
    renderField f vs es = Node.label f.name f.label :: errorBlock es f.name ∧
    (∀ m : String, lookupErr es f.name = some m →
      errorBlock es f.name = [Node.errorText m]) ∧
    (lookupErr es f.name = none → errorBlock es f.name = []) := by
  simp only [knownKinds, List.mem_cons, List.not_mem_nil, or_false, not_or] at h
  obtain ⟨h1, h2, h3, h4, h5, h6, h7, h8, h9, h10⟩ := h
  refine ⟨?_, ?_, ?_⟩
  · simp [renderField, h1, h2, h3, h4, h5, h6, h7, h8, h9, h10]
  · intro m hm
    simp [errorBlock, hm]
  · intro hm
    simp [errorBlock, hm]

/-- Example descriptor for claim C8: a typo'd field type. -/
def fC8 : Field := ⟨"mystery", "Mystery", "typo", none, [], none, none⟩

/-- Example error-set for claim C8. -/
def esC8 : ErrorSet := [("mystery", "required")]

theorem unknown_kind_no_control_witness :
    renderField fC8 [] esC8 =
      Node.label fC8.name fC8.label :: errorBlock esC8 fC8.name ∧
    (∀ m : String, lookupErr esC8 fC8.name = some m →
      errorBlock esC8 fC8.name = [Node.errorText m]) ∧
    (lookupErr esC8 fC8.name = none → errorBlock esC8 fC8.name = []) :=
  unknown_kind_no_control fC8 [] esC8 (by decide)

/-- Claim C9: the render pass is a pure function of the field list, the
value-set and the error-set — two calls with identical inputs produce
identical output. -/
theorem renderForm_deterministic (fs1 fs2 : List Field) (vs1 vs2 : ValueSet)
    (es1 es2 : ErrorSet) (h1 : fs1 = fs2) (h2 : vs1 = vs2) (h3 : es1 = es2) :
    renderForm fs1 vs1 es1 = renderForm fs2 vs2 es2 := by
  rw [h1, h2, h3]

/-- Example field list for claim C9, from the spec's end-to-end scenario. -/
def fieldsC9 : List Field :=
  [⟨"country", "Country", "select", none, [⟨"us", "US"⟩, ⟨"other", "Other"⟩],
    none, none⟩,
   ⟨"customCountry", "Custom country", "text", none, [],
    some ⟨"country", JSValue.str "other"⟩, none⟩]

/-- Example value-set for claim C9. -/
def vsC9 : ValueSet := [("country", JSValue.str "us")]

theorem renderForm_deterministic_witness :
    renderForm fieldsC9 vsC9 [] = renderForm fieldsC9 vsC9 [] :=
  renderForm_deterministic fieldsC9 fieldsC9 vsC9 vsC9 [] [] rfl rfl rfl

end ReusableFormSpec
